import Mathlib

/-!
Shallow embedding of the GENIVI GNSS data-interface contract
(src/Positioning/include/genivi/gnss.h).

The header is pure data: five enumerations and three plain records
(TGNSSTime, TGNSSSatelliteDetail, TGNSSPosition).  Enumerations are
embedded as lists of (constant name, numeric value) pairs, preserving the
exact C values; the records are embedded as Lean structures whose integer
fields carry Nat/Int values, with machine-width bounds stated in a
`representable` predicate, and whose documented value ranges (given only
as comments in the C source) are collected into a `wellFormed` predicate
per record.  The C float/double fields are modelled as exact rationals:
the header performs no floating-point arithmetic, it only declares
storage, so only the ordering and the values of the fields matter.
-/

namespace GNSS

/-- EGNSSFixStatus: mutually exclusive fix status values (C enum,
default consecutive numbering 0..3). -/
inductive EGNSSFixStatus where
  | GNSS_FIX_STATUS_NO
  | GNSS_FIX_STATUS_TIME
  | GNSS_FIX_STATUS_2D
  | GNSS_FIX_STATUS_3D
deriving DecidableEq, Repr

/-- EGNSSTimeScale: UTC (preferred, value 0) or GPS (fallback, value 1). -/
inductive EGNSSTimeScale where
  | GNSS_TIME_SCALE_UTC
  | GNSS_TIME_SCALE_GPS
deriving DecidableEq, Repr

/-- EGNSSFixType, group 1: information about the used satellite data. -/
def fixTypeSignalCharacteristics : List (String × Nat) :=
  [("GNSS_FIX_TYPE_SINGLE_FREQUENCY", 0x00000001),
   ("GNSS_FIX_TYPE_MULTI_FREQUENCY", 0x00000002),
   ("GNSS_FIX_TYPE_MULTI_CONSTELLATION", 0x00000004)]

/-- EGNSSFixType, group 2: improvement techniques based on the satellite
signals. -/
def fixTypeImprovementTechniques : List (String × Nat) :=
  [("GNSS_FIX_TYPE_PPP", 0x00000010),
   ("GNSS_FIX_TYPE_INTEGRITY_CHECKED", 0x00000020)]

/-- EGNSSFixType, group 3: information about used correction data. -/
def fixTypeCorrectionSource : List (String × Nat) :=
  [("GNSS_FIX_TYPE_SBAS", 0x00001000),
   ("GNSS_FIX_TYPE_DGNSS", 0x00002000),
   ("GNSS_FIX_TYPE_RTK_FIXED", 0x00004000),
   ("GNSS_FIX_TYPE_RTK_FLOAT", 0x00008000),
   ("GNSS_FIX_TYPE_SSR", 0x00010000)]

/-- EGNSSFixType, group 4: information about position propagation. -/
def fixTypePropagation : List (String × Nat) :=
  [("GNSS_FIX_TYPE_ESTIMATED", 0x00100000),
   ("GNSS_FIX_TYPE_DEAD_RECKONING", 0x00200000)]

/-- EGNSSFixType, group 5: information to identify artificial GNSS fixes. -/
def fixTypeArtificial : List (String × Nat) :=
  [("GNSS_FIX_TYPE_MANUAL", 0x10000000),
   ("GNSS_FIX_TYPE_SIMULATOR_MODE", 0x20000000)]

/-- The five comment-delimited groups of EGNSSFixType, in source order. -/
def fixTypeClusters : List (List (String × Nat)) :=
  [fixTypeSignalCharacteristics, fixTypeImprovementTechniques,
   fixTypeCorrectionSource, fixTypePropagation, fixTypeArtificial]

/-- EGNSSFixType: all enumerated flag constants, in source order. -/
def EGNSSFixType : List (String × Nat) := fixTypeClusters.flatten

/-- EGNSSSystem, constellation part: constants below 0x00010000. -/
def coreSystems : List (String × Nat) :=
  [("GNSS_SYSTEM_GPS", 0x00000001),
   ("GNSS_SYSTEM_GLONASS", 0x00000002),
   ("GNSS_SYSTEM_GALILEO", 0x00000004),
   ("GNSS_SYSTEM_BEIDOU", 0x00000008),
   ("GNSS_SYSTEM_GPS_L2", 0x00000010),
   ("GNSS_SYSTEM_GPS_L5", 0x00000020),
   ("GNSS_SYSTEM_GLONASS_L2", 0x00000040),
   ("GNSS_SYSTEM_BEIDOU_B2", 0x00000080)]

/-- EGNSSSystem, augmentation part: numbers at or above 0x00010000
identify SBAS (satellite based augmentation system). -/
def sbasSystems : List (String × Nat) :=
  [("GNSS_SYSTEM_SBAS_WAAS", 0x00010000),
   ("GNSS_SYSTEM_SBAS_EGNOS", 0x00020000),
   ("GNSS_SYSTEM_SBAS_MSAS", 0x00040000),
   ("GNSS_SYSTEM_SBAS_QZSS_SAIF", 0x00080000),
   ("GNSS_SYSTEM_SBAS_SDCM", 0x00100000),
   ("GNSS_SYSTEM_SBAS_GAGAN", 0x00200000)]

/-- EGNSSSystem: all enumerated constants, in source order. -/
def EGNSSSystem : List (String × Nat) := coreSystems ++ sbasSystems

/-- EGNSSSatelliteFlag: per-satellite status flags for
TGNSSSatelliteDetail.statusBits. -/
def EGNSSSatelliteFlag : List (String × Nat) :=
  [("GNSS_SATELLITE_USED", 0x00000001),
   ("GNSS_SATELLITE_EPHEMERIS_AVAILABLE", 0x00000002)]

/-- EGNSSTimeValidityBits: validity bits of TGNSSTime.validityBits. -/
def EGNSSTimeValidityBits : List (String × Nat) :=
  [("GNSS_TIME_TIME_VALID", 0x00000001),
   ("GNSS_TIME_DATE_VALID", 0x00000002),
   ("GNSS_TIME_SCALE_VALID", 0x00000004),
   ("GNSS_TIME_LEAPSEC_VALID", 0x00000008)]

/-- EGNSSSatelliteDetailValidityBits: validity bits of
TGNSSSatelliteDetail.validityBits. -/
def EGNSSSatelliteDetailValidityBits : List (String × Nat) :=
  [("GNSS_SATELLITE_SYSTEM_VALID", 0x00000001),
   ("GNSS_SATELLITE_ID_VALID", 0x00000002),
   ("GNSS_SATELLITE_AZIMUTH_VALID", 0x00000004),
   ("GNSS_SATELLITE_ELEVATION_VALID", 0x00000008),
   ("GNSS_SATELLITE_CNO_VALID", 0x00000010),
   ("GNSS_SATELLITE_USED_VALID", 0x00000020),
   ("GNSS_SATELLITE_EPHEMERIS_AVAILABLE_VALID", 0x00000040),
   ("GNSS_SATELLITE_RESIDUAL_VALID", 0x00000080)]

/-- EGNSSPositionValidityBits: each entry is (constant name, value,
name of the TGNSSPosition field it gates), transcribed from the per-value
doc comments of the C enum, in source order. -/
def EGNSSPositionValidityBits : List (String × Nat × String) :=
  [("GNSS_POSITION_LATITUDE_VALID", 0x00000001, "latitude"),
   ("GNSS_POSITION_LONGITUDE_VALID", 0x00000002, "longitude"),
   ("GNSS_POSITION_ALTITUDEMSL_VALID", 0x00000004, "altitudeMSL"),
   ("GNSS_POSITION_ALTITUDEELL_VALID", 0x00000008, "altitudeEll"),
   ("GNSS_POSITION_HSPEED_VALID", 0x00000010, "hSpeed"),
   ("GNSS_POSITION_VSPEED_VALID", 0x00000020, "vSpeed"),
   ("GNSS_POSITION_HEADING_VALID", 0x00000040, "heading"),
   ("GNSS_POSITION_PDOP_VALID", 0x00000080, "pdop"),
   ("GNSS_POSITION_HDOP_VALID", 0x00000100, "hdop"),
   ("GNSS_POSITION_VDOP_VALID", 0x00000200, "vdop"),
   ("GNSS_POSITION_USAT_VALID", 0x00000400, "usedSatellites"),
   ("GNSS_POSITION_TSAT_VALID", 0x00000800, "trackedSatellites"),
   ("GNSS_POSITION_VSAT_VALID", 0x00001000, "visibleSatellites"),
   ("GNSS_POSITION_SHPOS_VALID", 0x00002000, "sigmaHPosition"),
   ("GNSS_POSITION_SALT_VALID", 0x00004000, "sigmaAltitude"),
   ("GNSS_POSITION_SHSPEED_VALID", 0x00008000, "sigmaHSpeed"),
   ("GNSS_POSITION_SVSPEED_VALID", 0x00010000, "sigmaVSpeed"),
   ("GNSS_POSITION_SHEADING_VALID", 0x00020000, "sigmaHeading"),
   ("GNSS_POSITION_STAT_VALID", 0x00040000, "fixStatus"),
   ("GNSS_POSITION_TYPE_VALID", 0x00080000, "fixTypeBits"),
   ("GNSS_POSITION_ASYS_VALID", 0x00100000, "activatedSystems"),
   ("GNSS_POSITION_USYS_VALID", 0x00200000, "usedSystems"),
   ("GNSS_POSITION_CORRAGE_VALID", 0x00400000, "correctionAge")]

/-- Values list of EGNSSPositionValidityBits (drops names and gated
fields). -/
def positionValidityValues : List Nat :=
  EGNSSPositionValidityBits.map (fun p => p.2.1)

/-- A value with exactly one bit set (within a 32-bit mask): 2 to the k
for some bit position k below 32. -/
def singleBit (n : Nat) : Prop := ∃ k : Fin 32, n = 2 ^ k.val

instance : DecidablePred singleBit := fun n =>
  inferInstanceAs (Decidable (∃ k : Fin 32, n = 2 ^ k.val))

/-- Bitmask membership test: the flag bits are all set in the mask. -/
def flagSet (mask flag : Nat) : Bool := mask &&& flag == flag

/-- TGNSSTime: current date and time according UTC (or GPS time scale).
Unsigned C fields become Nat, the int8_t leapSeconds becomes Int; the
machine widths are stated in TGNSSTime.representable. -/
structure TGNSSTime where
  timestamp : Nat
  year : Nat
  month : Nat
  day : Nat
  hour : Nat
  minute : Nat
  second : Nat
  ms : Nat
  scale : EGNSSTimeScale
  leapSeconds : Int
  validityBits : Nat
deriving DecidableEq, Repr

/-- The machine-width bounds of the C fields of TGNSSTime
(uint64_t timestamp; uint16_t year, ms; uint8_t month, day, hour, minute,
second; int8_t leapSeconds; uint32_t validityBits). -/
def TGNSSTime.representable (t : TGNSSTime) : Prop :=
  t.timestamp < 2 ^ 64 ∧ t.year < 2 ^ 16 ∧ t.month < 2 ^ 8 ∧
  t.day < 2 ^ 8 ∧ t.hour < 2 ^ 8 ∧ t.minute < 2 ^ 8 ∧ t.second < 2 ^ 8 ∧
  t.ms < 2 ^ 16 ∧ -(2 ^ 7) ≤ t.leapSeconds ∧ t.leapSeconds < 2 ^ 7 ∧
  t.validityBits < 2 ^ 32

/-- The documented value ranges of TGNSSTime, from the per-field doc
comments: month between 0 and 11, day between 1 and 31, hour between
0 and 23, minute between 0 and 59, second between 0 and 59 (in case of a
leap second this value is 60), ms between 0 and 999.  `leapSecondEvent`
says whether a leap second is currently being inserted. -/
def TGNSSTime.wellFormed (leapSecondEvent : Bool) (t : TGNSSTime) : Prop :=
  t.representable ∧ t.month ≤ 11 ∧ 1 ≤ t.day ∧ t.day ≤ 31 ∧
  t.hour ≤ 23 ∧ t.minute ≤ 59 ∧
  (if leapSecondEvent then t.second ≤ 60 else t.second ≤ 59) ∧
  t.ms ≤ 999

instance (b : Bool) (t : TGNSSTime) : Decidable (t.wellFormed b) := by
  unfold TGNSSTime.wellFormed TGNSSTime.representable
  infer_instance

/-- TGNSSSatelliteDetail: detailed data from one GNSS satellite.  The
`system` field is a single EGNSSSystem value, kept as its numeric code. -/
structure TGNSSSatelliteDetail where
  timestamp : Nat
  system : Nat
  satelliteId : Nat
  azimuth : Nat
  elevation : Nat
  CNo : Nat
  statusBits : Nat
  posResidual : Int
  validityBits : Nat
deriving DecidableEq, Repr

/-- The machine-width bounds of the C fields of TGNSSSatelliteDetail
(uint64_t timestamp; EGNSSSystem system and uint32_t statusBits,
validityBits as 32-bit; uint16_t satelliteId, azimuth, elevation, CNo;
int16_t posResidual). -/
def TGNSSSatelliteDetail.representable (s : TGNSSSatelliteDetail) : Prop :=
  s.timestamp < 2 ^ 64 ∧ s.system < 2 ^ 32 ∧ s.satelliteId < 2 ^ 16 ∧
  s.azimuth < 2 ^ 16 ∧ s.elevation < 2 ^ 16 ∧ s.CNo < 2 ^ 16 ∧
  s.statusBits < 2 ^ 32 ∧ -(2 ^ 15) ≤ s.posResidual ∧
  s.posResidual < 2 ^ 15 ∧ s.validityBits < 2 ^ 32

/-- The documented value ranges of TGNSSSatelliteDetail, from the
per-field doc comments: azimuth value range 0..359, elevation value
range 0..90, CNo range 0 to 99 (0 when not tracking), posResidual range
-999 to +999 (0 if not tracking). -/
def TGNSSSatelliteDetail.wellFormed (s : TGNSSSatelliteDetail) : Prop :=
  s.representable ∧ s.azimuth ≤ 359 ∧ s.elevation ≤ 90 ∧ s.CNo ≤ 99 ∧
  -999 ≤ s.posResidual ∧ s.posResidual ≤ 999

instance (s : TGNSSSatelliteDetail) : Decidable s.wellFormed := by
  unfold TGNSSSatelliteDetail.wellFormed TGNSSSatelliteDetail.representable
  infer_instance

/-- TGNSSPosition: GNSS position data including velocity, status and
accuracy.  C double/float fields are modelled as exact rationals (the
header declares storage only, no floating-point computation). -/
structure TGNSSPosition where
  timestamp : Nat
  latitude : ℚ
  longitude : ℚ
  altitudeMSL : ℚ
  altitudeEll : ℚ
  hSpeed : ℚ
  vSpeed : ℚ
  heading : ℚ
  pdop : ℚ
  hdop : ℚ
  vdop : ℚ
  usedSatellites : Nat
  trackedSatellites : Nat
  visibleSatellites : Nat
  sigmaHPosition : ℚ
  sigmaAltitude : ℚ
  sigmaHSpeed : ℚ
  sigmaVSpeed : ℚ
  sigmaHeading : ℚ
  fixStatus : EGNSSFixStatus
  fixTypeBits : Nat
  activatedSystems : Nat
  usedSystems : Nat
  correctionAge : Nat
  validityBits : Nat
deriving DecidableEq, Repr

/-- The field names of TGNSSPosition, in C declaration order. -/
def TGNSSPositionFieldNames : List String :=
  ["timestamp", "latitude", "longitude", "altitudeMSL", "altitudeEll",
   "hSpeed", "vSpeed", "heading", "pdop", "hdop", "vdop",
   "usedSatellites", "trackedSatellites", "visibleSatellites",
   "sigmaHPosition", "sigmaAltitude", "sigmaHSpeed", "sigmaVSpeed",
   "sigmaHeading", "fixStatus", "fixTypeBits", "activatedSystems",
   "usedSystems", "correctionAge", "validityBits"]

/-- The machine-width bounds of the integer C fields of TGNSSPosition
(uint64_t timestamp; uint16_t satellite counts and correctionAge;
uint32_t fixTypeBits, activatedSystems, usedSystems, validityBits). -/
def TGNSSPosition.representable (p : TGNSSPosition) : Prop :=
  p.timestamp < 2 ^ 64 ∧ p.usedSatellites < 2 ^ 16 ∧
  p.trackedSatellites < 2 ^ 16 ∧ p.visibleSatellites < 2 ^ 16 ∧
  p.fixTypeBits < 2 ^ 32 ∧ p.activatedSystems < 2 ^ 32 ∧
  p.usedSystems < 2 ^ 32 ∧ p.correctionAge < 2 ^ 16 ∧
  p.validityBits < 2 ^ 32

/-- The documented value constraints of TGNSSPosition.  The only range
stated by the per-field doc comments is on heading: "GNSS course angle
[degree] (0 => north, 90 => east, 180 => south, 270 => west, no negative
values)", i.e. a lower bound of 0; no other field carries a documented
range and the pdop/hdop/vdop identity is given as a note only. -/
def TGNSSPosition.wellFormed (p : TGNSSPosition) : Prop :=
  p.representable ∧ 0 ≤ p.heading

instance (p : TGNSSPosition) : Decidable p.wellFormed := by
  unfold TGNSSPosition.wellFormed TGNSSPosition.representable
  infer_instance

/-- Validity bit for TGNSSSatelliteDetail::statusBits flag
GNSS_SATELLITE_USED. -/
def GNSS_SATELLITE_USED_VALID : Nat := 0x00000020

/-- Validity bit for TGNSSSatelliteDetail::statusBits flag
GNSS_SATELLITE_EPHEMERIS_AVAILABLE. -/
def GNSS_SATELLITE_EPHEMERIS_AVAILABLE_VALID : Nat := 0x00000040

/-- Validity bit for TGNSSPosition::pdop. -/
def GNSS_POSITION_PDOP_VALID : Nat := 0x00000080

/-- Validity bit for TGNSSPosition::hdop. -/
def GNSS_POSITION_HDOP_VALID : Nat := 0x00000100

/-- Validity bit for TGNSSPosition::vdop. -/
def GNSS_POSITION_VDOP_VALID : Nat := 0x00000200

/-- A sample well-formed TGNSSTime value taken during a leap second
(second = 60), with all other fields at their documented boundary. -/
def sampleLeapTime : TGNSSTime :=
  { timestamp := 1000, year := 2016, month := 11, day := 31, hour := 23,
    minute := 59, second := 60, ms := 999,
    scale := EGNSSTimeScale.GNSS_TIME_SCALE_UTC, leapSeconds := 17,
    validityBits := 0x0000000F }

/-- A sample well-formed TGNSSSatelliteDetail value at the documented
range boundaries. -/
def sampleSatellite : TGNSSSatelliteDetail :=
  { timestamp := 1000, system := 0x00000001, satelliteId := 32,
    azimuth := 359, elevation := 90, CNo := 99, statusBits := 0x00000001,
    posResidual := -999, validityBits := 0x000000FF }

/-- A TGNSSPosition value that satisfies every constraint documented in
the source (all integer fields within machine width, heading
nonnegative) yet has heading = 400, outside [0, 360). -/
def headingOutOfRange : TGNSSPosition :=
  { timestamp := 1000, latitude := 48, longitude := 11, altitudeMSL := 520,
    altitudeEll := 568, hSpeed := 10, vSpeed := 0, heading := 400,
    pdop := 2, hdop := 1, vdop := 1, usedSatellites := 8,
    trackedSatellites := 10, visibleSatellites := 12,
    sigmaHPosition := 1, sigmaAltitude := 2, sigmaHSpeed := 1,
    sigmaVSpeed := 1, sigmaHeading := 1,
    fixStatus := EGNSSFixStatus.GNSS_FIX_STATUS_3D,
    fixTypeBits := 0x00000001, activatedSystems := 0x00000003,
    usedSystems := 0x00000001, correctionAge := 0,
    validityBits := 0x007FFFFF }

/-- A well-formed TGNSSPosition value whose pdop, hdop and vdop validity
bits are all set while pdop^2 = 1 differs from hdop^2 + vdop^2 = 2. -/
def dopInconsistent : TGNSSPosition :=
  { headingOutOfRange with heading := 90, pdop := 1, hdop := 1, vdop := 1 }

/-- Claim C1: within each of the EGNSSFixType, EGNSSSystem and
EGNSSSatelliteFlag enumerations the constant values are pairwise
distinct and each value is a power of two (exactly one bit set), so the
flags are independently combinable in a bitmask. -/
theorem fixType_system_satelliteFlag_flags_distinct_pow2 :
    (EGNSSFixType.map Prod.snd).Nodup ∧
    (∀ p ∈ EGNSSFixType, singleBit p.2) ∧
    (EGNSSSystem.map Prod.snd).Nodup ∧
    (∀ p ∈ EGNSSSystem, singleBit p.2) ∧
    (EGNSSSatelliteFlag.map Prod.snd).Nodup ∧
    (∀ p ∈ EGNSSSatelliteFlag, singleBit p.2) := by
  decide

/-- Claim C2: for each of the three records (Time, SatelliteDetail,
Position) the validityBits enumeration values are pairwise distinct
powers of two, so each enumeration constant occupies a bit position that
is unique within its record and no two fields share a validity bit. -/
theorem validityBits_positions_unique :
    (EGNSSTimeValidityBits.map Prod.snd).Nodup ∧
    (∀ p ∈ EGNSSTimeValidityBits, singleBit p.2) ∧
    (EGNSSSatelliteDetailValidityBits.map Prod.snd).Nodup ∧
    (∀ p ∈ EGNSSSatelliteDetailValidityBits, singleBit p.2) ∧
    positionValidityValues.Nodup ∧
    (∀ v ∈ positionValidityValues, singleBit v) := by
  decide

/-- Claim C3, counterexample: the EGNSSFixType enumeration defines 14
flag constants, not 32, so "an open bitmask of 32 independent flags" is
false of the enumeration as declared. -/
theorem fixType_not_32_flags :
    EGNSSFixType.length = 14 ∧ EGNSSFixType.length ≠ 32 := by
  decide

/-- Claim C3, amended: the EGNSSFixType enumeration is an open bitmask
over a 32-bit word with 14 enumerated independent flags (distinct single
bits, all below 2^32), grouped into five logical clusters in source
order: signal characteristics, precision-improvement techniques,
correction source, propagation method, artificial-fix markers. -/
theorem fixType_14_flags_five_clusters :
    fixTypeClusters.length = 5 ∧
    fixTypeClusters.flatten = EGNSSFixType ∧
    EGNSSFixType.length = 14 ∧
    (∀ p ∈ EGNSSFixType, singleBit p.2) ∧
    (∀ p ∈ EGNSSFixType, p.2 < 2 ^ 32) ∧
    (EGNSSFixType.map Prod.snd).Nodup := by
  decide

/-- Claim C4, counterexample: the EGNSSSystem constants with value at or
above 0x10000 number six (WAAS, EGNOS, MSAS, QZSS-SAIF, SDCM, GAGAN),
not five as the claim states. -/
theorem system_sbas_count_not_five :
    (EGNSSSystem.filter (fun p => 0x10000 ≤ p.2)).length = 6 ∧
    (EGNSSSystem.filter (fun p => 0x10000 ≤ p.2)).length ≠ 5 := by
  decide

/-- Claim C4, amended: the SBAS-class augmentation systems are exactly
the EGNSSSystem constants with value at or above 0x10000; there are six
such SBAS regional systems, and every non-SBAS constellation constant
has value below 0x10000. -/
theorem system_sbas_exactly_high_range_six :
    EGNSSSystem.filter (fun p => 0x10000 ≤ p.2) = sbasSystems ∧
    sbasSystems.length = 6 ∧
    (∀ p ∈ coreSystems, p.2 < 0x10000) ∧
    coreSystems ++ sbasSystems = EGNSSSystem := by
  decide

/-- Claim C5: every well-formed TGNSSTime record has month between 0 and
11, day between 1 and 31, and second between 0 and 60, with second = 60
possible only during a leap second. -/
theorem time_wellFormed_ranges (leap : Bool) (t : TGNSSTime)
    (h : t.wellFormed leap) :
    t.month ≤ 11 ∧ 1 ≤ t.day ∧ t.day ≤ 31 ∧ t.second ≤ 60 ∧
    (t.second = 60 → leap = true) := by
  obtain ⟨-, hm, hd1, hd2, -, -, hs, -⟩ := h
  cases leap
  · simp only [Bool.false_eq_true, if_false] at hs
    exact ⟨hm, hd1, hd2, by omega, fun h60 => absurd h60 (by omega)⟩
  · simp only [if_true] at hs
    exact ⟨hm, hd1, hd2, hs, fun _ => rfl⟩

/-- Witness for claim C5 at the concrete leap-second sample record. -/
theorem time_wellFormed_ranges_witness :
    sampleLeapTime.wellFormed true ∧
    (sampleLeapTime.month ≤ 11 ∧ 1 ≤ sampleLeapTime.day ∧
     sampleLeapTime.day ≤ 31 ∧ sampleLeapTime.second ≤ 60 ∧
     (sampleLeapTime.second = 60 → true = true)) :=
  ⟨by decide, time_wellFormed_ranges true sampleLeapTime (by decide)⟩

/-- Claim C6: every well-formed TGNSSSatelliteDetail record has azimuth
between 0 and 359 degrees, elevation between 0 and 90 degrees, CNo
between 0 and 99, and posResidual between -999 and 999. -/
theorem satelliteDetail_wellFormed_ranges (s : TGNSSSatelliteDetail)
    (h : s.wellFormed) :
    s.azimuth ≤ 359 ∧ s.elevation ≤ 90 ∧ s.CNo ≤ 99 ∧
    -999 ≤ s.posResidual ∧ s.posResidual ≤ 999 :=
  ⟨h.2.1, h.2.2.1, h.2.2.2.1, h.2.2.2.2.1, h.2.2.2.2.2⟩

/-- Witness for claim C6 at the concrete boundary sample record. -/
theorem satelliteDetail_wellFormed_ranges_witness :
    sampleSatellite.wellFormed ∧
    (sampleSatellite.azimuth ≤ 359 ∧ sampleSatellite.elevation ≤ 90 ∧
     sampleSatellite.CNo ≤ 99 ∧ -999 ≤ sampleSatellite.posResidual ∧
     sampleSatellite.posResidual ≤ 999) :=
  ⟨by decide, satelliteDetail_wellFormed_ranges sampleSatellite (by decide)⟩

/-- Claim C7, counterexample: the source documents only "no negative
values" for TGNSSPosition::heading, so a record with heading = 400
satisfies every documented constraint while lying outside [0, 360). -/
theorem position_heading_can_exceed_360 :
    headingOutOfRange.wellFormed ∧ ¬ headingOutOfRange.heading < 360 := by
  constructor
  · decide
  · decide

/-- Claim C7, amended: every well-formed TGNSSPosition record has a
nonnegative heading; the source documents no upper bound on heading,
though the compass reading (0 north, 90 east, 180 south, 270 west)
suggests values below 360. -/
theorem position_heading_nonneg (p : TGNSSPosition) (h : p.wellFormed) :
    0 ≤ p.heading :=
  h.2

/-- Witness for amended claim C7 at a concrete record. -/
theorem position_heading_nonneg_witness :
    dopInconsistent.wellFormed ∧ 0 ≤ dopInconsistent.heading :=
  ⟨by decide, position_heading_nonneg dopInconsistent (by decide)⟩

/-- Claim C8: the identity pdop^2 = hdop^2 + vdop^2 is documented for
TGNSSPosition but not enforced by the data model: there is a
representable, well-formed Position value with the pdop, hdop and vdop
validity bits all set whose DOP fields violate the identity. -/
theorem pdop_identity_not_enforced :
    ∃ p : TGNSSPosition, p.wellFormed ∧
      flagSet p.validityBits GNSS_POSITION_PDOP_VALID = true ∧
      flagSet p.validityBits GNSS_POSITION_HDOP_VALID = true ∧
      flagSet p.validityBits GNSS_POSITION_VDOP_VALID = true ∧
      p.pdop ^ 2 ≠ p.hdop ^ 2 + p.vdop ^ 2 := by
  refine ⟨dopInconsistent, by decide, by decide, by decide, by decide, ?_⟩
  norm_num [dopInconsistent, headingOutOfRange]

/-- Claim C9: the EGNSSPositionValidityBits enumeration has exactly 23
constants occupying the consecutive bit positions 0 through 22 with no
gaps, and its gated fields are exactly, in order and without repetition,
the 23 TGNSSPosition fields other than timestamp and validityBits. -/
theorem position_validityBits_23_consecutive_bijective :
    EGNSSPositionValidityBits.length = 23 ∧
    positionValidityValues = (List.range 23).map (fun k => 2 ^ k) ∧
    EGNSSPositionValidityBits.map (fun p => p.2.2) =
      TGNSSPositionFieldNames.filter
        (fun f => f != "timestamp" && f != "validityBits") ∧
    (EGNSSPositionValidityBits.map (fun p => p.2.2)).Nodup ∧
    TGNSSPositionFieldNames.length = 25 := by
  decide

/-- Claim C10: the two TGNSSSatelliteDetail statusBits flags are gated
by their own distinct validity bits (GNSS_SATELLITE_USED_VALID and
GNSS_SATELLITE_EPHEMERIS_AVAILABLE_VALID, both members of the validity
enumeration), so a well-formed record can mark the USED flag valid while
the EPHEMERIS_AVAILABLE flag is not, and conversely. -/
theorem satellite_statusBits_per_flag_validity :
    ("GNSS_SATELLITE_USED_VALID", GNSS_SATELLITE_USED_VALID)
      ∈ EGNSSSatelliteDetailValidityBits ∧
    ("GNSS_SATELLITE_EPHEMERIS_AVAILABLE_VALID",
      GNSS_SATELLITE_EPHEMERIS_AVAILABLE_VALID)
      ∈ EGNSSSatelliteDetailValidityBits ∧
    GNSS_SATELLITE_USED_VALID ≠ GNSS_SATELLITE_EPHEMERIS_AVAILABLE_VALID ∧
    (∃ s : TGNSSSatelliteDetail, s.wellFormed ∧
      flagSet s.validityBits GNSS_SATELLITE_USED_VALID = true ∧
      flagSet s.validityBits GNSS_SATELLITE_EPHEMERIS_AVAILABLE_VALID
        = false) ∧
    (∃ s : TGNSSSatelliteDetail, s.wellFormed ∧
      flagSet s.validityBits GNSS_SATELLITE_USED_VALID = false ∧
      flagSet s.validityBits GNSS_SATELLITE_EPHEMERIS_AVAILABLE_VALID
        = true) := by
  refine ⟨by decide, by decide, by decide, ?_, ?_⟩
  · exact ⟨{ sampleSatellite with validityBits := 0x00000020 },
      by decide, by decide, by decide⟩
  · exact ⟨{ sampleSatellite with validityBits := 0x00000040 },
      by decide, by decide, by decide⟩

end GNSS
